import Mathlib

/-!
# LumeMap projection mapper — verification of the rendering / interaction core

Shallow embedding of the LumeMap editor (React + canvas).  Points use exact
rational arithmetic in place of IEEE doubles; the only transcendental the
claims touch (`Math.sin` in the breathe effect) is modelled by `Real.sin`.

Source of authority:
* `Canvas` component (drawTriangle, drawWarpedImage, draw, handlePointerDown,
  handlePointerMove) — src/unnamed/part_000.
* `App` component (addShape, deleteShape, handlePointsUpdate, importProject,
  draft persistence effect) — src/unnamed/part_002.
* `types.ts` — the data model.
-/

namespace LumeMap

/-- 2-D point; normalized coordinates live in `[0,1]`, pixel coordinates in
canvas space.  `types.ts`: `Point = { x: number; y: number }`. -/
structure Point where
  x : ℚ
  y : ℚ
  deriving DecidableEq, Repr

/-- `types.ts` `EffectType`. -/
inductive EffectType where
  | none | strobe | breathe | rainbow | warp
  deriving DecidableEq, Repr

/-- `types.ts` `FillType`. -/
inductive FillType where
  | solid | checkerboard | grid | video | image
  deriving DecidableEq, Repr

/-- `types.ts` `MappingMode`. -/
inductive MappingMode where
  | mask | stretch
  deriving DecidableEq, Repr

/-- `types.ts` `ShapeType`. -/
inductive ShapeType where
  | polygon | circle | square
  deriving DecidableEq, Repr

/-- `types.ts` `EditorMode`. -/
inductive EditorMode where
  | IDLE | DRAWING | EDITING | PROJECTING
  deriving DecidableEq, Repr

/-- `types.ts` `ShapeStyle` (media sources kept as optional opaque strings). -/
structure ShapeStyle where
  color : String
  opacity : ℚ
  strokeColor : String
  strokeWidth : ℚ
  effect : EffectType
  effectSpeed : ℕ
  fillType : FillType
  mappingMode : MappingMode
  videoSrc : Option String := Option.none
  imageSrc : Option String := Option.none
  videoMuted : Option Bool := Option.none
  deriving DecidableEq, Repr

/-- `types.ts` `Shape` — a surface. -/
structure Shape where
  id : String
  name : String
  type : ShapeType
  points : List Point
  visible : Bool
  isClosed : Bool
  style : ShapeStyle
  deriving DecidableEq, Repr

/-! ## Geometry utilities (Canvas component, part_000) -/

/-- `toPixels(p, w, h)` — normalized → pixel coordinates. -/
def toPixels (p : Point) (w h : ℚ) : Point := ⟨p.x * w, p.y * h⟩

/-- `toNormalized(p, w, h)` — pixel → normalized coordinates. -/
def toNormalized (p : Point) (w h : ℚ) : Point := ⟨p.x / w, p.y / h⟩

/-- Squared Euclidean distance.  The source computes
`dist(p1,p2) = Math.hypot(p1.x-p2.x, p1.y-p2.y)` and only ever compares it
against positive thresholds; over exact arithmetic `hypot d < t ↔ distSq < t²`,
so every comparison `dist < t` is embedded as `distSq < t*t`. -/
def distSq (p1 p2 : Point) : ℚ := (p1.x - p2.x) ^ 2 + (p1.y - p2.y) ^ 2

/-! ## Perspective warp engine (part_000, drawTriangle / drawWarpedImage) -/

/-- The source-triangle determinant of `drawTriangle` (part_000 line 140):
`(s1.x-s0.x)*(s2.y-s0.y) - (s2.x-s0.x)*(s1.y-s0.y)`. -/
def triDet (s0 s1 s2 : Point) : ℚ :=
  (s1.x - s0.x) * (s2.y - s0.y) - (s2.x - s0.x) * (s1.y - s0.y)

/-- The six coefficients of a 2-D affine transform, in the order the canvas
`setTransform(a, b, c, d, e, f)` call receives them. -/
structure Affine where
  a : ℚ
  b : ℚ
  c : ℚ
  d : ℚ
  e : ℚ
  f : ℚ
  deriving DecidableEq, Repr

/-- The affine solve of `drawTriangle` (part_000 lines 143–148), mapping the
source triangle `(s0,s1,s2)` onto the destination triangle `(d0,d1,d2)`. -/
def solveAffine (s0 s1 s2 d0 d1 d2 : Point) : Affine :=
  let det := triDet s0 s1 s2
  let a := ((d1.x - d0.x) * (s2.y - s0.y) - (d2.x - d0.x) * (s1.y - s0.y)) / det
  let b := ((d1.y - d0.y) * (s2.y - s0.y) - (d2.y - d0.y) * (s1.y - s0.y)) / det
  let c := ((d2.x - d0.x) * (s1.x - s0.x) - (d1.x - d0.x) * (s2.x - s0.x)) / det
  let d := ((d2.y - d0.y) * (s1.x - s0.x) - (d1.y - d0.y) * (s2.x - s0.x)) / det
  let e := d0.x - a * s0.x - c * s0.y
  let f := d0.y - b * s0.x - d * s0.y
  ⟨a, b, c, d, e, f⟩

/-- `drawTriangle` (part_000 lines 126–153), modelled by its observable
geometry: `none` when the degeneracy guard `Math.abs(det) < 0.1` fires
(the function restores and returns without setting a transform or drawing),
otherwise the affine transform passed to `setTransform`. -/
def drawTriangle (s0 s1 s2 d0 d1 d2 : Point) : Option Affine :=
  if |triDet s0 s1 s2| < 1/10 then Option.none
  else Option.some (solveAffine s0 s1 s2 d0 d1 d2)

/-- Centroid of a point list (part_000 lines 174–176: `reduce` then divide by
length). -/
def centroid (ps : List Point) : Point :=
  let acc := ps.foldl (fun acc p => Point.mk (acc.x + p.x) (acc.y + p.y)) ⟨0, 0⟩
  ⟨acc.x / ps.length, acc.y / ps.length⟩

/-- `drawWarpedImage` (part_000 lines 155–200), modelled as the list of
`drawTriangle` invocation results it performs.  `iw`/`ih` are the raster's
intrinsic width/height.  For the fan (N≠4) case the source places the UV of
fan vertex `i` at `((cos(2πi/N)*0.5+0.5)*iw, (sin(2πi/N)*0.5+0.5)*ih)`; those
trigonometric placements are abstracted by the parameter `uv` (no claim
depends on their values — the degenerate-input guard fires before any of
them is computed). -/
def drawWarpedImage (uv : ℕ → Point) (iw ih : ℚ) (points : List Point)
    (w h : ℚ) : List (Option Affine) :=
  if iw = 0 ∨ ih = 0 ∨ points.length < 3 then []
  else if hlen : points.length = 4 then
    let p0 := points.get ⟨0, by omega⟩
    let p1 := points.get ⟨1, by omega⟩
    let p2 := points.get ⟨2, by omega⟩
    let p3 := points.get ⟨3, by omega⟩
    [drawTriangle ⟨0, 0⟩ ⟨iw, 0⟩ ⟨iw, ih⟩
       (toPixels p0 w h) (toPixels p1 w h) (toPixels p2 w h),
     drawTriangle ⟨0, 0⟩ ⟨iw, ih⟩ ⟨0, ih⟩
       (toPixels p0 w h) (toPixels p2 w h) (toPixels p3 w h)]
  else
    let c := centroid points
    let cPx := toPixels c w h
    let cUV : Point := ⟨iw / 2, ih / 2⟩
    (List.range points.length).map fun i =>
      let p1 := points.getD i ⟨0, 0⟩
      let p2 := points.getD ((i + 1) % points.length) ⟨0, 0⟩
      drawTriangle cUV (uv i) (uv (i + 1)) cPx (toPixels p1 w h) (toPixels p2 w h)

/-! ## Effect evaluator (part_000, `draw`, lines 313–314) -/

/-- The strobe time-bucket length in milliseconds:
`(11 - shape.style.effectSpeed) * 80` (part_000 line 313). -/
def strobePeriod (speed : ℕ) : ℕ := (11 - speed) * 80

/-- The strobe effect of `draw` (part_000 line 313):
`opacity = Math.floor(time / ((11 - speed) * 80)) % 2 === 0 ? opacity : 0`.
`time` is `Date.now()` in integer milliseconds, so the floored quotient is
natural-number division. -/
def strobeOpacity (base : ℚ) (speed : ℕ) (time : ℕ) : ℚ :=
  if time / strobePeriod speed % 2 = 0 then base else 0

/-- The breathe effect of `draw` (part_000 line 314):
`opacity = base * (0.3 + 0.7 * (Math.sin(time * (speed / 800)) * 0.5 + 0.5))`,
with `Math.sin` idealized as `Real.sin`. -/
noncomputable def breatheOpacity (base speed time : ℝ) : ℝ :=
  base * (0.3 + 0.7 * (Real.sin (time * (speed / 800)) * 0.5 + 0.5))

/-! ## Render loop visibility guard (part_000, `draw`, line 308) -/

/-- The surfaces the render loop actually paints: `draw` begins each
iteration with `if (!shape.visible || shape.points.length < 2) return;`
(part_000 line 308), so exactly the visible surfaces with at least 2 points
are painted. -/
def renderedShapes (shapes : List Shape) : List Shape :=
  shapes.filter fun s => s.visible && !(decide (s.points.length < 2))

/-! ## Interaction controller (part_000 handlers + part_002 App callbacks) -/

/-- The canvas-local drag state `dragInfo` (part_000 lines 37–40). -/
structure DragInfo where
  shapeId : String
  pointIndex : ℕ
  deriving DecidableEq, Repr

/-- The combined host + canvas interaction state: `shapes`,
`selectedShapeId`, `mode` and `drawingPoints` live in `App` (part_002 lines
115–126, where `drawingPoints` is the canvas's `currentDrawingPoints` prop);
`dragInfo` is canvas-local.  Purely visual state (mouse-position preview,
panel-visibility flags) is not modelled. -/
structure EditorState where
  shapes : List Shape
  selectedShapeId : Option String
  mode : EditorMode
  drawingPoints : List Point
  dragInfo : Option DragInfo
  deriving Repr

/-- The default style of `addShape` (part_002 lines 247–256). -/
def defaultStyle : ShapeStyle where
  color := "#ffffff"
  opacity := 1
  strokeColor := "#ffffff"
  strokeWidth := 0
  effect := EffectType.none
  effectSpeed := 5
  fillType := FillType.grid
  mappingMode := MappingMode.stretch

/-- The shape `addShape` (part_002 lines 214–265) builds from custom points:
name `` `Poly ${shapes.length + 1}` ``, `visible: true`, `isClosed: true`,
default style.  `n` is the current length of the shape list. -/
def newPolyShape (id : String) (points : List Point) (n : ℕ) : Shape where
  id := id
  name := "Poly " ++ toString (n + 1)
  type := ShapeType.polygon
  points := points
  visible := true
  isClosed := true
  style := defaultStyle

/-- `addShape(type, customPoints)` (part_002 lines 214–265) on the
custom-points path — the only path the claims exercise (the square/circle
preset-point paths, the circle one trigonometric, are not modelled).
Appends the new shape, selects it and enters `EDITING`.  `newId` stands for
the random id `Math.random().toString(36).substr(2, 9)`. -/
def addShape (st : EditorState) (newId : String) (customPoints : List Point) :
    EditorState :=
  { st with
      shapes := st.shapes ++ [newPolyShape newId customPoints st.shapes.length]
      selectedShapeId := Option.some newId
      mode := EditorMode.EDITING }

/-- `updateShape(id, updates)` (part_002 lines 272–274) specialised to the
points/isClosed update issued by `handlePointsUpdate`. -/
def updateShapePoints (shapes : List Shape) (id : String) (points : List Point)
    (isClosed : Bool) : List Shape :=
  shapes.map fun s =>
    if s.id = id then { s with points := points, isClosed := isClosed } else s

/-- `handlePointsUpdate(points, isClosed)` (part_002 lines 282–290): while
drawing a closed path this creates the new polygon surface, clears the draw
buffer and returns to `EDITING`; otherwise it rewrites the selected shape's
points. -/
def handlePointsUpdate (st : EditorState) (newId : String) (points : List Point)
    (isClosed : Bool) : EditorState :=
  if st.mode = EditorMode.DRAWING ∧ isClosed then
    let st1 := addShape st newId points
    { st1 with drawingPoints := [], mode := EditorMode.EDITING }
  else
    match st.selectedShapeId with
    | Option.some sid =>
        { st with shapes := updateShapePoints st.shapes sid points isClosed }
    | Option.none => st

/-- The ray-casting point-in-polygon test `isInside` inlined in
`handlePointerDown` (part_000 lines 470–478): iterate edges `(poly[j],
poly[i])` with `j = i-1` (wrapping), toggling parity when the horizontal ray
from `pt` crosses the edge.  The division `(pt.y-yi)/(yj-yi)` is only reached
when `yi > pt.y ≠ yj > pt.y`, hence `yj ≠ yi`. -/
def isInside (pt : Point) (poly : List Point) : Bool :=
  (List.range poly.length).foldl
    (fun inside i =>
      let pi := poly.getD i ⟨0, 0⟩
      let pj := poly.getD ((i + poly.length - 1) % poly.length) ⟨0, 0⟩
      let intersect := (decide (pi.y > pt.y) != decide (pj.y > pt.y)) &&
        decide (pt.x < (pj.x - pi.x) * (pt.y - pi.y) / (pj.y - pi.y) + pi.x)
      if intersect then !inside else inside)
    false

/-- The hit-testing loop of `handlePointerDown` (part_000 lines 468–481):
scan shapes from last (topmost) to first, returning the first whose
pixel-space polygon contains the click.  Note the loop applies no
`visible` filter. -/
def hitTest (shapes : List Shape) (pixelP : Point) (w h : ℚ) : Option Shape :=
  shapes.reverse.find? fun s =>
    isInside pixelP (s.points.map fun sp => toPixels sp w h)

/-- The vertex-handle search of `handlePointerDown` (part_000 line 459):
`selected.points.findIndex(hp => dist(pixelP, toPixels(hp, w, h)) < 20)`. -/
def findHandle (shape : Shape) (pixelP : Point) (w h : ℚ) : Option ℕ :=
  shape.points.findIdx? fun hp => distSq pixelP (toPixels hp w h) < 400

/-- Outcome of a hit-test click (part_000 line 480–482 with the App
callbacks of part_002 lines 393–401 inlined): a hit selects the shape and
enters `EDITING`; a miss clears the selection and returns to `IDLE`. -/
def selectHit (st : EditorState) (pixelP : Point) (w h : ℚ) : EditorState :=
  match hitTest st.shapes pixelP w h with
  | Option.some s =>
      { st with selectedShapeId := Option.some s.id, mode := EditorMode.EDITING }
  | Option.none =>
      { st with selectedShapeId := Option.none, mode := EditorMode.IDLE }

/-- `handlePointerDown` (part_000 lines 435–483) with the App callbacks
inlined.  `pixelP` is the click in pixel coordinates, `w`/`h` the canvas
size, `newId` the id `addShape` would mint if a surface is created.
The drawing branch compares the click against the first buffered point with
the snap threshold `dist < 25` pixels (embedded as `distSq < 625`); the
handle branch uses `dist < 20` (`distSq < 400`). -/
def handlePointerDown (isProjector : Bool) (newId : String) (st : EditorState)
    (pixelP : Point) (w h : ℚ) : EditorState :=
  if isProjector ∨ st.mode = EditorMode.PROJECTING then st
  else
    let p := toNormalized pixelP w h
    if st.mode = EditorMode.DRAWING then
      if st.drawingPoints.length > 2 ∧
          distSq pixelP (toPixels (st.drawingPoints.getD 0 ⟨0, 0⟩) w h) < 625 then
        -- onPointsUpdate(points, true); onDrawingUpdate([]); onModeChange('EDITING')
        let st1 := handlePointsUpdate st newId st.drawingPoints true
        { st1 with drawingPoints := [], mode := EditorMode.EDITING }
      else
        { st with drawingPoints := st.drawingPoints ++ [p] }
    else
      let handleHit : Option EditorState :=
        match st.selectedShapeId with
        | Option.some sid =>
          match st.shapes.find? (fun s => s.id = sid) with
          | Option.some sel =>
            match findHandle sel pixelP w h with
            | Option.some idx =>
                Option.some { st with dragInfo := Option.some ⟨sel.id, idx⟩ }
            | Option.none => Option.none
          | Option.none => Option.none
        | Option.none => Option.none
      match handleHit with
      | Option.some st' => st'
      | Option.none => selectHit st pixelP w h

/-- `Math.max(0, Math.min(1, x))` — the componentwise clamp of
`handlePointerMove` (part_000 lines 502–503). -/
def clamp01 (x : ℚ) : ℚ := max 0 (min 1 x)

/-- `handlePointerMove` (part_000 lines 485–507) with the App callback
inlined.  In `DRAWING` mode the handler only updates the mouse-position
preview (not modelled), leaving the state unchanged.  A live drag writes the
clamped vertex through `onPointsUpdate` → `handlePointsUpdate`; the source's
`dragInfo.pointIndex !== -1` check always holds since the index is set from a
successful `findIndex`.  The fresh-id argument of `handlePointsUpdate` is
irrelevant here (the mode is not `DRAWING`), so `""` is passed. -/
def handlePointerMove (isProjector : Bool) (st : EditorState) (pixelP : Point)
    (w h : ℚ) : EditorState :=
  let p := toNormalized pixelP w h
  if st.mode = EditorMode.DRAWING then st
  else if isProjector then st
  else
    match st.dragInfo with
    | Option.none => st
    | Option.some di =>
      match st.shapes.find? (fun s => s.id = di.shapeId) with
      | Option.none => st
      | Option.some shape =>
          let newPoints :=
            shape.points.set di.pointIndex ⟨clamp01 p.x, clamp01 p.y⟩
          handlePointsUpdate st "" newPoints shape.isClosed

/-- `deleteShape(id)` (part_002 lines 267–270): filter the shape out; clear
the selection if it pointed at the deleted id. -/
def deleteShape (st : EditorState) (id : String) : EditorState :=
  { st with
      shapes := st.shapes.filter fun s => s.id ≠ id
      selectedShapeId :=
        if st.selectedShapeId = Option.some id then Option.none
        else st.selectedShapeId }

/-- The selection is `null` or the id of a surface present in the list. -/
def selectionValid (st : EditorState) : Prop :=
  ∀ sid, st.selectedShapeId = Option.some sid → ∃ s ∈ st.shapes, s.id = sid

/-! ## Project import (part_002, importProject) and draft persistence -/

/-- A JSON value, as produced by `JSON.parse`.  Objects are represented as
key/value lists with distinct keys (`JSON.parse` already deduplicates). -/
inductive Json where
  | null
  | bool (b : Bool)
  | num (q : ℚ)
  | str (s : String)
  | arr (elems : List Json)
  | obj (fields : List (String × Json))

/-- JavaScript truthiness of a JSON value (`if (data.shapes)`):
`null`, `false`, `0` and `""` are falsy; arrays and objects are truthy. -/
def truthy : Json → Bool
  | Json.null => false
  | Json.bool b => b
  | Json.num q => decide (q ≠ 0)
  | Json.str s => decide (s ≠ "")
  | Json.arr _ => true
  | Json.obj _ => true

/-- Property access `data.shapes`.  On a non-object this is `undefined`
(or a `TypeError` on `null`, swallowed by the surrounding `try`) — in either
case no shapes are installed, so both are modelled as `none`. -/
def getField : Json → String → Option Json
  | Json.obj fields, key => fields.lookup key
  | _, _ => Option.none

/-- `importProject` (part_002 lines 192–208), modelled on the parsed file
content.  `parsed` is the outcome of `JSON.parse` inside the `try` block
(`Except.error` = the catch path).  The live surface list is held exactly as
the untyped value `setShapes(data.shapes)` would install (the source performs
no validation of the field's contents). -/
def importProject (current : Json) (parsed : Except Unit Json) : Json :=
  match parsed with
  | Except.error _ => current
  | Except.ok data =>
    match getField data "shapes" with
    | Option.some v => if truthy v then v else current
    | Option.none => current

/-- The draft-persistence effect (part_002 lines 145–149):
`if (shapes.length > 0) localStorage.setItem('lumemap_current_draft',
JSON.stringify(shapes))`.  The stored JSON string is represented by the
shape list it encodes; `store` is the previous content of the key. -/
def persistDraft (store : Option (List Shape)) (shapes : List Shape) :
    Option (List Shape) :=
  if shapes.length > 0 then Option.some shapes else store

/-- The mount-time restore (part_002 lines 138–140): `const saved =
localStorage.getItem('lumemap_current_draft'); if (saved) setShapes(
JSON.parse(saved))`; `shapes` is the (empty) initial list kept when no draft
exists. -/
def loadDraft (store : Option (List Shape)) (shapes : List Shape) :
    List Shape :=
  match store with
  | Option.some saved => saved
  | Option.none => shapes

/-! ## Concrete fixtures used by witnesses and counterexamples -/

/-- An invisible unit-square surface occupying `[0.2,0.8]²`. -/
def ghostShape : Shape where
  id := "ghost"
  name := "Ghost"
  type := ShapeType.square
  points := [⟨1/5, 1/5⟩, ⟨4/5, 1/5⟩, ⟨4/5, 4/5⟩, ⟨1/5, 4/5⟩]
  visible := false
  isClosed := true
  style := defaultStyle

/-- Idle editor showing only the invisible square. -/
def ghostState : EditorState where
  shapes := [ghostShape]
  selectedShapeId := Option.none
  mode := EditorMode.IDLE
  drawingPoints := []
  dragInfo := Option.none

/-- A visible triangle surface named `tri`. -/
def triShape : Shape where
  id := "tri"
  name := "Tri"
  type := ShapeType.polygon
  points := [⟨1/10, 1/10⟩, ⟨1/2, 1/10⟩, ⟨1/2, 1/2⟩]
  visible := true
  isClosed := true
  style := defaultStyle

/-- Mid-draw editor with the buffer `[(0.1,0.1),(0.5,0.1),(0.5,0.5)]`. -/
def drawState : EditorState where
  shapes := []
  selectedShapeId := Option.none
  mode := EditorMode.DRAWING
  drawingPoints := [⟨1/10, 1/10⟩, ⟨1/2, 1/10⟩, ⟨1/2, 1/2⟩]
  dragInfo := Option.none

/-- Editing state with an active drag of `tri`'s vertex 0. -/
def dragState : EditorState where
  shapes := [triShape]
  selectedShapeId := Option.some "tri"
  mode := EditorMode.EDITING
  drawingPoints := []
  dragInfo := Option.some ⟨"tri", 0⟩

end LumeMap

namespace LumeMap

/-! ## C1: the affine solve maps source vertices to destination vertices -/

/-- The six mapping equations of claim C1 for the solved transform `A`:
`a*si.x + c*si.y + e = di.x` and `b*si.x + d*si.y + f = di.y` for `i = 0,1,2`. -/
def mapsTriangle (A : Affine) (s0 s1 s2 d0 d1 d2 : Point) : Prop :=
  A.a * s0.x + A.c * s0.y + A.e = d0.x ∧ A.b * s0.x + A.d * s0.y + A.f = d0.y ∧
  A.a * s1.x + A.c * s1.y + A.e = d1.x ∧ A.b * s1.x + A.d * s1.y + A.f = d1.y ∧
  A.a * s2.x + A.c * s2.y + A.e = d2.x ∧ A.b * s2.x + A.d * s2.y + A.f = d2.y

/-- C1: whenever the source triangle's determinant is at least the guard
threshold `0.1` in absolute value, the six coefficients solved in
`drawTriangle` map each source vertex exactly onto its destination vertex,
and for a destination equal to the source the solved transform is the
identity matrix `(1,0,0,1,0,0)`. -/
theorem solveAffine_maps_vertices (s0 s1 s2 d0 d1 d2 : Point)
    (h : 1/10 ≤ |triDet s0 s1 s2|) :
    mapsTriangle (solveAffine s0 s1 s2 d0 d1 d2) s0 s1 s2 d0 d1 d2 ∧
    solveAffine s0 s1 s2 s0 s1 s2 = ⟨1, 0, 0, 1, 0, 0⟩ := by
  have hdet : triDet s0 s1 s2 ≠ 0 := by
    intro h0
    rw [h0] at h
    simp at h
    linarith
  unfold triDet at hdet
  constructor
  · unfold mapsTriangle solveAffine triDet
    refine ⟨by ring, by ring, ?_, ?_, ?_, ?_⟩ <;>
      · field_simp
        try ring
  · unfold solveAffine triDet
    simp only [Affine.mk.injEq]
    refine ⟨?_, ?_, ?_, ?_, ?_, ?_⟩ <;>
      · field_simp
        try ring

/-- Witness for C1 at the concrete source triangle `(0,0),(1,0),(0,1)`
(determinant `1`) and destination `(2,3),(5,7),(11,13)`. -/
theorem solveAffine_maps_vertices_witness :
    (1/10 : ℚ) ≤ |triDet ⟨0,0⟩ ⟨1,0⟩ ⟨0,1⟩| ∧
    (mapsTriangle (solveAffine ⟨0,0⟩ ⟨1,0⟩ ⟨0,1⟩ ⟨2,3⟩ ⟨5,7⟩ ⟨11,13⟩)
        ⟨0,0⟩ ⟨1,0⟩ ⟨0,1⟩ ⟨2,3⟩ ⟨5,7⟩ ⟨11,13⟩ ∧
      solveAffine ⟨0,0⟩ ⟨1,0⟩ ⟨0,1⟩ ⟨0,0⟩ ⟨1,0⟩ ⟨0,1⟩ = ⟨1, 0, 0, 1, 0, 0⟩) :=
  ⟨by norm_num [triDet],
   solveAffine_maps_vertices ⟨0,0⟩ ⟨1,0⟩ ⟨0,1⟩ ⟨2,3⟩ ⟨5,7⟩ ⟨11,13⟩
     (by norm_num [triDet])⟩

/-! ## C4: strobe is a hard on/off parity flicker with speed-decreasing period -/

/-- C4: for any base opacity, speed in 1–10 and time, the strobe output is
exactly the base opacity or exactly `0`; it depends on the time only through
the parity of the time bucket `time / strobePeriod speed`; and the switching
period is strictly decreasing in the speed. -/
theorem strobeOpacity_parity_flicker (base : ℚ) (speed time : ℕ)
    (h1 : 1 ≤ speed) (h2 : speed ≤ 10) :
    (strobeOpacity base speed time = base ∨ strobeOpacity base speed time = 0) ∧
    (∀ t' : ℕ, time / strobePeriod speed % 2 = t' / strobePeriod speed % 2 →
      strobeOpacity base speed time = strobeOpacity base speed t') ∧
    (∀ s' : ℕ, speed < s' → s' ≤ 10 → strobePeriod s' < strobePeriod speed) := by
  refine ⟨?_, ?_, ?_⟩
  · unfold strobeOpacity
    split
    · exact Or.inl rfl
    · exact Or.inr rfl
  · intro t' hpar
    unfold strobeOpacity
    rw [hpar]
  · intro s' hlt hle
    unfold strobePeriod
    omega

/-- Witness for C4 at base `1/2`, speed `3`, time `1000`. -/
theorem strobeOpacity_parity_flicker_witness :
    (strobeOpacity (1/2) 3 1000 = 1/2 ∨ strobeOpacity (1/2) 3 1000 = 0) ∧
    (∀ t' : ℕ, 1000 / strobePeriod 3 % 2 = t' / strobePeriod 3 % 2 →
      strobeOpacity (1/2) 3 1000 = strobeOpacity (1/2) 3 t') ∧
    (∀ s' : ℕ, 3 < s' → s' ≤ 10 → strobePeriod s' < strobePeriod 3) :=
  strobeOpacity_parity_flicker (1/2) 3 1000 (by norm_num) (by norm_num)

/-! ## C5: breathe stays within `[0.3 * base, base]` -/

/-- C5: for any base opacity in `[0,1]` and any speed and time, the breathe
output lies in `[0.3 * base, base]` — a breathing surface with positive base
opacity never becomes fully invisible. -/
theorem breatheOpacity_bounds (base speed time : ℝ)
    (h0 : 0 ≤ base) (h1 : base ≤ 1) :
    0.3 * base ≤ breatheOpacity base speed time ∧
      breatheOpacity base speed time ≤ base := by
  have hs1 : -1 ≤ Real.sin (time * (speed / 800)) := Real.neg_one_le_sin _
  have hs2 : Real.sin (time * (speed / 800)) ≤ 1 := Real.sin_le_one _
  unfold breatheOpacity
  constructor <;> nlinarith

/-- Witness for C5 at base `1/2`, speed `5`, time `0`. -/
theorem breatheOpacity_bounds_witness :
    0.3 * (1/2 : ℝ) ≤ breatheOpacity (1/2) 5 0 ∧
      breatheOpacity (1/2) 5 0 ≤ (1/2 : ℝ) :=
  breatheOpacity_bounds (1/2) 5 0 (by norm_num) (by norm_num)

/-! ## C2: closing vs. appending a point while drawing -/

/-- C2: in `DRAWING` mode with more than 2 buffered points, a pointer-down
within the snap threshold of the first buffered point creates exactly one new
closed polygon surface from the buffered points (the closing click itself
excluded), selects it, clears the buffer and moves to `EDITING`; a
pointer-down outside the threshold appends the clicked (normalized) point to
the buffer and changes nothing else, so the mode stays `DRAWING`. -/
theorem drawing_close_or_append (st : EditorState) (pixelP : Point) (w h : ℚ)
    (newId : String) (hmode : st.mode = EditorMode.DRAWING)
    (hlen : 2 < st.drawingPoints.length) :
    (distSq pixelP (toPixels (st.drawingPoints.getD 0 ⟨0, 0⟩) w h) < 625 →
      handlePointerDown false newId st pixelP w h =
        { st with
            shapes := st.shapes ++
              [newPolyShape newId st.drawingPoints st.shapes.length]
            selectedShapeId := Option.some newId
            mode := EditorMode.EDITING
            drawingPoints := [] }) ∧
    (¬ distSq pixelP (toPixels (st.drawingPoints.getD 0 ⟨0, 0⟩) w h) < 625 →
      handlePointerDown false newId st pixelP w h =
        { st with drawingPoints := st.drawingPoints ++ [toNormalized pixelP w h] }) := by
  refine ⟨fun hd => ?_, fun hd => ?_⟩
  · rw [List.getD_eq_getElem?_getD] at hd
    simp [handlePointerDown, hmode, hlen, handlePointsUpdate, addShape]
    exact hd
  · rw [List.getD_eq_getElem?_getD] at hd
    simp [handlePointerDown, hmode, hlen, handlePointsUpdate, addShape]
    exact le_of_not_lt hd

/-- Witness for C2 on the buffer `[(0.1,0.1),(0.5,0.1),(0.5,0.5)]` over a
100×100 canvas: the click at normalized `(0.11,0.11)` (pixel `(11,11)`)
closes a 3-point surface; the click at `(0.3,0.3)` (pixel `(30,30)`)
appends a 4th point. -/
theorem drawing_close_or_append_witness :
    handlePointerDown false "new" drawState ⟨11, 11⟩ 100 100 =
      { drawState with
          shapes := drawState.shapes ++
            [newPolyShape "new" drawState.drawingPoints drawState.shapes.length]
          selectedShapeId := Option.some "new"
          mode := EditorMode.EDITING
          drawingPoints := [] } ∧
    handlePointerDown false "new" drawState ⟨30, 30⟩ 100 100 =
      { drawState with
          drawingPoints := drawState.drawingPoints ++ [toNormalized ⟨30, 30⟩ 100 100] } :=
  ⟨(drawing_close_or_append drawState ⟨11, 11⟩ 100 100 "new" rfl
      (by norm_num [drawState])).1
      (by norm_num [drawState, distSq, toPixels]),
   (drawing_close_or_append drawState ⟨30, 30⟩ 100 100 "new" rfl
      (by norm_num [drawState])).2
      (by norm_num [drawState, distSq, toPixels])⟩

/-! ## C3: a vertex drag stores the componentwise-clamped point -/

/-- C3: a live vertex drag writes back the dragged vertex componentwise
clamped to `[0,1]` — the stored point is
`(clamp01 p.x, clamp01 p.y)` for the normalized pointer position `p`, the
clamp always lands in `[0,1]`, and at normalized `(1.4, -0.3)` it produces
exactly `(1.0, 0.0)`. -/
theorem handlePointerMove_clamps (st : EditorState) (pixelP : Point) (w h : ℚ)
    (di : DragInfo) (shape : Shape)
    (hmode : st.mode ≠ EditorMode.DRAWING)
    (hdrag : st.dragInfo = Option.some di)
    (hfind : st.shapes.find? (fun s => s.id = di.shapeId) = Option.some shape) :
    (handlePointerMove false st pixelP w h =
      handlePointsUpdate st ""
        (shape.points.set di.pointIndex
          ⟨clamp01 (toNormalized pixelP w h).x, clamp01 (toNormalized pixelP w h).y⟩)
        shape.isClosed) ∧
    (∀ x : ℚ, 0 ≤ clamp01 x ∧ clamp01 x ≤ 1) ∧
    clamp01 (14/10) = 1 ∧ clamp01 (-3/10) = 0 := by
  refine ⟨?_, ?_, ?_, ?_⟩
  · simp [handlePointerMove, hmode, hdrag, hfind]
  · intro x
    refine ⟨le_max_left 0 _, max_le (by norm_num) (min_le_left 1 x)⟩
  · norm_num [clamp01]
  · norm_num [clamp01]

/-- Witness for C3: dragging vertex 0 of the `tri` surface to pixel
`(140,-30)` on a 100×100 canvas, i.e. normalized `(1.4, -0.3)`. -/
theorem handlePointerMove_clamps_witness :
    (handlePointerMove false dragState ⟨140, -30⟩ 100 100 =
      handlePointsUpdate dragState ""
        (triShape.points.set 0
          ⟨clamp01 (toNormalized ⟨140, -30⟩ 100 100).x,
           clamp01 (toNormalized ⟨140, -30⟩ 100 100).y⟩)
        triShape.isClosed) ∧
    (∀ x : ℚ, 0 ≤ clamp01 x ∧ clamp01 x ≤ 1) ∧
    clamp01 (14/10) = 1 ∧ clamp01 (-3/10) = 0 :=
  handlePointerMove_clamps dragState ⟨140, -30⟩ 100 100 ⟨"tri", 0⟩ triShape
    (by simp [dragState]) rfl (by simp [dragState, triShape])

/-! ## C6: invisible surfaces — skipped by rendering, NOT excluded from hit-testing -/

/-- Counterexample to C6: the invisible square `ghostShape` is the only
surface, yet a pointer-down at its center (pixel `(50,50)` of a 100×100
canvas) selects it — the hit-testing loop of `handlePointerDown` applies
no visibility filter, contradicting the claim that a pointer-down inside an
invisible surface's polygon never selects that surface. -/
theorem hitTest_selects_invisible_counterexample :
    ghostShape.visible = false ∧
    ghostState.shapes = [ghostShape] ∧
    (handlePointerDown false "n" ghostState ⟨50, 50⟩ 100 100).selectedShapeId =
      Option.some "ghost" := by
  refine ⟨rfl, rfl, ?_⟩
  norm_num [handlePointerDown, ghostState, ghostShape, selectHit, hitTest, isInside,
    findHandle, toPixels, toNormalized, distSq, List.range_succ]
  rfl

/-- C6 (amended): the render loop skips invisible surfaces entirely, but
pointer-down hit-testing does not exclude them: the id it returns is
invariant under arbitrary changes of the surfaces' `visible` flags, so a
pointer-down inside an invisible surface's polygon selects it exactly as if
it were visible. -/
theorem render_skips_invisible_hitTest_ignores_it (shapes : List Shape)
    (s : Shape) (pixelP : Point) (w h : ℚ) (v : Shape → Bool)
    (hs : s ∈ shapes) (hv : s.visible = false) :
    s ∉ renderedShapes shapes ∧
    Option.map Shape.id
        (hitTest (shapes.map fun t => { t with visible := v t }) pixelP w h) =
      Option.map Shape.id (hitTest shapes pixelP w h) := by
  constructor
  · simp [renderedShapes, List.mem_filter, hv]
  · unfold hitTest
    rw [← List.map_reverse, List.find?_map, Option.map_map]
    rfl

/-- Witness for C6's amended theorem on the invisible square: it is not
rendered, and flipping every `visible` flag to `true` does not change the
id the hit test returns. -/
theorem render_skips_invisible_hitTest_ignores_it_witness :
    ghostShape ∉ renderedShapes [ghostShape] ∧
    Option.map Shape.id
        (hitTest ([ghostShape].map fun t => { t with visible := true }) ⟨50, 50⟩ 100 100) =
      Option.map Shape.id (hitTest [ghostShape] ⟨50, 50⟩ 100 100) :=
  render_skips_invisible_hitTest_ignores_it [ghostShape] ghostShape ⟨50, 50⟩
    100 100 (fun _ => true) (by simp) rfl

/-! ## C7: degenerate warps are skipped, divisions happen only under the guard -/

/-- C7: `drawWarpedImage` draws no triangle when the raster has zero
intrinsic width or height or the surface has fewer than 3 points;
`drawTriangle` draws nothing (no transform, no divide) when
`|det| < 0.1`; and whenever `drawTriangle` does produce a transform, the
guard `0.1 ≤ |det|` held and the transform is exactly the det-divided
affine solve. -/
theorem warp_degenerate_guards (uv : ℕ → Point) (iw ih : ℚ)
    (points : List Point) (w h : ℚ) (s0 s1 s2 d0 d1 d2 : Point) :
    (iw = 0 ∨ ih = 0 ∨ points.length < 3 →
      drawWarpedImage uv iw ih points w h = []) ∧
    (|triDet s0 s1 s2| < 1/10 →
      drawTriangle s0 s1 s2 d0 d1 d2 = Option.none) ∧
    (∀ A, drawTriangle s0 s1 s2 d0 d1 d2 = Option.some A →
      1/10 ≤ |triDet s0 s1 s2| ∧ A = solveAffine s0 s1 s2 d0 d1 d2) := by
  refine ⟨?_, ?_, ?_⟩
  · intro hdeg
    unfold drawWarpedImage
    rw [if_pos hdeg]
  · intro hdet
    unfold drawTriangle
    rw [if_pos hdet]
  · intro A hA
    unfold drawTriangle at hA
    by_cases hdet : |triDet s0 s1 s2| < 1/10
    · rw [if_pos hdet] at hA
      exact absurd hA (by simp)
    · rw [if_neg hdet] at hA
      exact ⟨le_of_not_lt hdet, (Option.some.injEq _ _).mp hA |>.symm⟩

/-- Witness for C7: a zero-width raster draws nothing, and a collinear
source triangle (determinant `0`) makes `drawTriangle` skip. -/
theorem warp_degenerate_guards_witness :
    drawWarpedImage (fun _ => ⟨0, 0⟩) 0 5 [⟨0, 0⟩, ⟨1, 0⟩, ⟨0, 1⟩] 100 100 = [] ∧
    drawTriangle ⟨0, 0⟩ ⟨1, 0⟩ ⟨2, 0⟩ ⟨0, 0⟩ ⟨1, 0⟩ ⟨0, 1⟩ = Option.none :=
  ⟨(warp_degenerate_guards (fun _ => ⟨0, 0⟩) 0 5 [⟨0, 0⟩, ⟨1, 0⟩, ⟨0, 1⟩] 100 100
      ⟨0, 0⟩ ⟨1, 0⟩ ⟨2, 0⟩ ⟨0, 0⟩ ⟨1, 0⟩ ⟨0, 1⟩).1 (Or.inl rfl),
   (warp_degenerate_guards (fun _ => ⟨0, 0⟩) 0 5 [⟨0, 0⟩, ⟨1, 0⟩, ⟨0, 1⟩] 100 100
      ⟨0, 0⟩ ⟨1, 0⟩ ⟨2, 0⟩ ⟨0, 0⟩ ⟨1, 0⟩ ⟨0, 1⟩).2.1 (by norm_num [triDet])⟩

/-! ## C8: import atomicity and the shapes-field condition -/

/-- Counterexample to C8: the document `{"shapes": null}` has a `shapes`
field, yet `importProject` leaves the live list unchanged instead of
replacing it with that field's value — `if (data.shapes)` tests JS
truthiness, not presence. -/
theorem importProject_null_shapes_counterexample :
    getField (Json.obj [("shapes", Json.null)]) "shapes" = Option.some Json.null ∧
    importProject (Json.arr []) (Except.ok (Json.obj [("shapes", Json.null)])) =
      Json.arr [] ∧
    Json.arr [] ≠ Json.null :=
  ⟨rfl, rfl, fun hcontra => Json.noConfusion hcontra⟩

/-- C8 (amended): import is atomic — a parse failure or a missing `shapes`
field leaves the live surface list completely unchanged; a present and
truthy `shapes` field replaces the list wholesale by that field's value; a
present but falsy `shapes` field (`null`, `false`, `0`, `""`) also leaves
the list unchanged. -/
theorem importProject_atomic (current : Json) (file : Except Unit Json) :
    (∀ e, file = Except.error e → importProject current file = current) ∧
    (∀ data, file = Except.ok data → getField data "shapes" = Option.none →
      importProject current file = current) ∧
    (∀ data v, file = Except.ok data → getField data "shapes" = Option.some v →
      truthy v = true → importProject current file = v) ∧
    (∀ data v, file = Except.ok data → getField data "shapes" = Option.some v →
      truthy v = false → importProject current file = current) := by
  refine ⟨?_, ?_, ?_, ?_⟩
  · intro e he
    subst he
    rfl
  · intro data hok hnone
    subst hok
    simp [importProject, hnone]
  · intro data v hok hsome htruthy
    subst hok
    simp [importProject, hsome, htruthy]
  · intro data v hok hsome hfalsy
    subst hok
    simp [importProject, hsome, hfalsy]

/-- Witness for C8's amended theorem: a malformed file and a file whose
document lacks `shapes` leave the list unchanged; `{"shapes": []}` replaces
it wholesale. -/
theorem importProject_atomic_witness :
    importProject (Json.arr [Json.num 1]) (Except.error ()) = Json.arr [Json.num 1] ∧
    importProject (Json.arr [Json.num 1]) (Except.ok (Json.obj [("app", Json.str "LumeMap")])) =
      Json.arr [Json.num 1] ∧
    importProject (Json.arr [Json.num 1]) (Except.ok (Json.obj [("shapes", Json.arr [])])) =
      Json.arr [] :=
  ⟨(importProject_atomic (Json.arr [Json.num 1]) (Except.error ())).1 () rfl,
   (importProject_atomic (Json.arr [Json.num 1])
      (Except.ok (Json.obj [("app", Json.str "LumeMap")]))).2.1 _ rfl rfl,
   (importProject_atomic (Json.arr [Json.num 1])
      (Except.ok (Json.obj [("shapes", Json.arr [])]))).2.2.1 _ _ rfl rfl rfl⟩

/-! ## C9: deletion never leaves a dangling selection -/

/-- C9: deleting the selected surface removes it and clears the selection;
deleting a non-selected surface leaves the selection unchanged; hence a
valid selection (null or pointing at a present surface) stays valid across
any delete. -/
theorem deleteShape_selection (st : EditorState) (id : String) :
    (st.selectedShapeId = Option.some id →
      (deleteShape st id).selectedShapeId = Option.none) ∧
    (∀ s ∈ (deleteShape st id).shapes, s.id ≠ id) ∧
    (st.selectedShapeId ≠ Option.some id →
      (deleteShape st id).selectedShapeId = st.selectedShapeId) ∧
    (selectionValid st → selectionValid (deleteShape st id)) := by
  refine ⟨?_, ?_, ?_, ?_⟩
  · intro hsel
    simp [deleteShape, hsel]
  · intro s hs
    simp only [deleteShape, List.mem_filter, decide_eq_true_eq] at hs
    exact hs.2
  · intro hsel
    simp [deleteShape, hsel]
  · intro hvalid sid hsel
    by_cases hcase : st.selectedShapeId = Option.some id
    · simp [deleteShape, hcase] at hsel
    · simp only [deleteShape, if_neg hcase] at hsel
      obtain ⟨s, hmem, hid⟩ := hvalid sid hsel
      refine ⟨s, ?_, hid⟩
      simp only [deleteShape, List.mem_filter, decide_eq_true_eq]
      refine ⟨hmem, ?_⟩
      rw [hid]
      intro hcontra
      rw [hcontra] at hsel
      exact hcase hsel

/-- Witness for C9 on a two-surface state selecting `tri`: deleting `tri`
clears the selection; deleting `ghost` leaves it pointing at `tri`. -/
theorem deleteShape_selection_witness :
    (deleteShape ⟨[triShape, ghostShape], Option.some "tri", EditorMode.EDITING,
        [], Option.none⟩ "tri").selectedShapeId = Option.none ∧
    (deleteShape ⟨[triShape, ghostShape], Option.some "tri", EditorMode.EDITING,
        [], Option.none⟩ "ghost").selectedShapeId = Option.some "tri" :=
  ⟨(deleteShape_selection ⟨[triShape, ghostShape], Option.some "tri",
      EditorMode.EDITING, [], Option.none⟩ "tri").1 rfl,
   (deleteShape_selection ⟨[triShape, ghostShape], Option.some "tri",
      EditorMode.EDITING, [], Option.none⟩ "ghost").2.2.1 (by simp)⟩

/-! ## C10: the draft is persisted only while non-empty -/

/-- C10: the persistence effect writes the draft only when the surface list
is non-empty — an empty list leaves the stored draft untouched — and after
the list becomes empty (in any number of steps), a reload still restores
the last non-empty list. -/
theorem persistDraft_only_nonempty (store : Option (List Shape))
    (shapes l init : List Shape) (es : List (List Shape)) :
    (shapes = [] → persistDraft store shapes = store) ∧
    (shapes ≠ [] → persistDraft store shapes = Option.some shapes) ∧
    (l ≠ [] → (∀ e ∈ es, e = []) →
      loadDraft (es.foldl persistDraft (persistDraft store l)) init = l) := by
  refine ⟨?_, ?_, ?_⟩
  · intro hempty
    simp [persistDraft, hempty]
  · intro hne
    simp [persistDraft, List.length_pos.mpr hne]
  · intro hne hes
    have hstep : persistDraft store l = Option.some l := by
      simp [persistDraft, List.length_pos.mpr hne]
    have hfold : ∀ es' : List (List Shape), (∀ e ∈ es', e = []) →
        es'.foldl persistDraft (Option.some l) = Option.some l := by
      intro es'
      induction es' with
      | nil => intro _; rfl
      | cons e rest ih =>
          intro hs
          have he : e = [] := hs e (List.mem_cons_self e rest)
          have hrest : ∀ e' ∈ rest, e' = [] := fun e' he' =>
            hs e' (List.mem_cons_of_mem e he')
          rw [List.foldl_cons, he]
          simpa [persistDraft] using ih hrest
    rw [hstep, hfold es hes]
    rfl

/-- Witness for C10: persisting `[triShape]` then two empty lists keeps the
draft at `[triShape]`, and a reload restores it. -/
theorem persistDraft_only_nonempty_witness :
    persistDraft (Option.some [triShape]) [] = Option.some [triShape] ∧
    persistDraft Option.none [triShape] = Option.some [triShape] ∧
    loadDraft ([[], []].foldl persistDraft (persistDraft Option.none [triShape])) [] =
      [triShape] :=
  ⟨(persistDraft_only_nonempty (Option.some [triShape]) [] [triShape] [] []).1 rfl,
   (persistDraft_only_nonempty Option.none [triShape] [triShape] [] []).2.1
     (by simp),
   (persistDraft_only_nonempty Option.none [] [triShape] [] [[], []]).2.2
     (by simp) (by simp)⟩

end LumeMap
